import Mathlib

/-!
Shallow embedding of the payment-ingestion and receipt-issuance core of the
repository: the account classifier (`lib/account-utils`), the product title
resolver (`src/lib/product-title.ts`), the database schema declared by
`src/scripts/init-db.ts`, the PrivatBank ingestion route
(`POST /api/integrations/privatbank/fetch`, `src/unnamed/part_003`) and the
receipt creation route (`src/app/api/receipts/create/route.ts`).

Definitions are translated from the TypeScript source.  JS `null`/`undefined`
string values are modelled as `Option String`; fixed-point monetary amounts
(`DECIMAL(10,2)`) as `ℚ`; the persistent store as lists of typed rows.
-/

/-! ### Account classifier (`lib/account-utils`)

The repository carries several revisions of `isTargetAccount`.  The current
one (the revision that declares the `NOVA_POSHTA_ACCOUNT` constant, embedded
alongside `src/lib/product-title.ts`) uses the 15-18 window and the excluded
courier account; the revision in `src/unnamed/part_001` is identical except
that it lacks the excluded-account check. -/

def NON_TARGET_PATTERNS : List String := ["2600", "2902", "2909", "2920"]

def NOVA_POSHTA_ACCOUNT : String := "UA813005280000026548000000014"

/-- JS `senderAccount.substring(15, 19)`: the four characters at 0-indexed
positions 15 to 18. -/
def patternSection (s : String) : String :=
  String.mk ((s.data.drop 15).take 4)

/-- `isTargetAccount`, current revision (with the excluded courier account).
The JS guard `!senderAccount || senderAccount.length < 19` is true for
`null`/`undefined` (here `none`) and for every string shorter than 19
characters, the empty string included. -/
def isTargetAccount (senderAccount : Option String) : Bool :=
  match senderAccount with
  | none => false
  | some s =>
    if s.length < 19 then false
    else if s = NOVA_POSHTA_ACCOUNT then false
    else !(NON_TARGET_PATTERNS.contains (patternSection s))

/-- `isTargetAccount`, the `src/unnamed/part_001` revision: identical to
`isTargetAccount` but without the excluded-account check. -/
def isTargetAccountNoExcl (senderAccount : Option String) : Bool :=
  match senderAccount with
  | none => false
  | some s =>
    if s.length < 19 then false
    else !(NON_TARGET_PATTERNS.contains (patternSection s))

/-- The JS guard `!senderAccount || senderAccount.length < 19`: account is
null/absent (hence also empty) or shorter than 19 characters. -/
def accountMissingOrShort (senderAccount : Option String) : Bool :=
  match senderAccount with
  | none => true
  | some s => decide (s.length < 19)

/-! ### Product title resolver (`src/lib/product-title.ts`) -/

structure CompanyInfo where
  id : Nat
  name : String
  tax_id : Option String
deriving DecidableEq

structure PaymentInfo where
  id : Nat
  description : Option String
  amount : ℚ
  sender_name : Option String
deriving DecidableEq

/-- `getUniversalProductTitle`: the branch that would use
`payment.description` is commented out in the source, so the fixed default
title is always returned. -/
def getUniversalProductTitle (_payment : PaymentInfo) : String :=
  "Перехідник HDMI-RCA"

/-- `getProductTitle`: a fixed lookup on the company tax id, falling back to
the universal title. -/
def getProductTitle (company : CompanyInfo) (payment : PaymentInfo) : String :=
  match company.tax_id with
  | some "2593712430" => "Перехідник HDMI-VGA"
  | some "123456789" => "Косметичні товари"
  | _ => getUniversalProductTitle payment

/-- `getProductCode`: the payment id converted to a string. -/
def getProductCode (_company : CompanyInfo) (payment : PaymentInfo) : String :=
  toString payment.id

/-- The `companyInfo` object built by `POST /api/receipts/create`
(route.ts lines 91-94): only `id` and `name` are set, `tax_id` is absent. -/
def routeCompanyInfo (company_id : Nat) (company_name : String) : CompanyInfo :=
  { id := company_id, name := company_name, tax_id := none }

/-! ### Amount conversion -/

/-- Modelled from the spec: `uahToKopiyky` lives in `lib/checkbox-client`,
which is not among the provided source files; only its call site in
`src/app/api/receipts/create/route.ts` (line 88) is.  Spec §4.5 step 5:
"amount × 100, rounded to the nearest integer". -/
def uahToKopiyky (amount : ℚ) : ℤ :=
  round (amount * 100)

/-! ### Persistent store (`src/scripts/init-db.ts`)

Rows carry the columns the core reads and writes.  `SERIAL` ids are `Nat`,
`DECIMAL(10,2)` amounts are `ℚ`, nullable columns are `Option`s,
`TIMESTAMP`s are `Int` epoch values. -/

structure CompanyRow where
  id : Nat
  name : String
  tax_id : String
  pb_merchant_id : Option String
  pb_api_token_encrypted : Option String
  checkbox_license_key_encrypted : Option String
  checkbox_cashier_login : Option String
  checkbox_cashier_pin_encrypted : Option String
deriving DecidableEq

structure PaymentRow where
  id : Nat
  company_id : Nat
  external_id : String
  amount : ℚ
  currency : String
  description : Option String
  sender_account : Option String
  sender_name : Option String
  sender_tax_id : Option String
  document_number : Option String
  payment_date : Int
  receipt_issued : Bool
  is_target : Bool
  receipt_id : Option Nat
deriving DecidableEq

structure ReceiptRow where
  id : Nat
  company_id : Nat
  payment_id : Option Nat
  checkbox_receipt_id : String
  fiscal_code : Option String
  amount : ℚ
  receipt_url : Option String
  pdf_url : Option String
  status : String
  issued_at : Int
deriving DecidableEq

structure DB where
  companies : List CompanyRow
  payments : List PaymentRow
  receipts : List ReceiptRow
deriving DecidableEq

/-- Schema constraints of the `companies` table: `id SERIAL PRIMARY KEY`,
`tax_id VARCHAR(50) UNIQUE NOT NULL`. -/
def companiesConstraints (db : DB) : Prop :=
  (db.companies.map CompanyRow.id).Nodup ∧
  (db.companies.map CompanyRow.tax_id).Nodup

/-- Schema constraints of the `payments` table: `id SERIAL PRIMARY KEY`,
`external_id VARCHAR(255) UNIQUE` — note: a GLOBAL uniqueness constraint on
`external_id` alone, not on the pair `(company_id, external_id)` — and the
`company_id` foreign key.  (SQL `UNIQUE` ignores NULLs; the core always
supplies an external id, so the column is modelled as non-null.) -/
def paymentsConstraints (db : DB) : Prop :=
  (db.payments.map PaymentRow.id).Nodup ∧
  (db.payments.map PaymentRow.external_id).Nodup ∧
  ∀ p ∈ db.payments, ∃ c ∈ db.companies, c.id = p.company_id

/-- Schema constraints of the `receipts` table: `id SERIAL PRIMARY KEY` and
the two foreign keys.  `idx_receipts_payment_id` is a plain
`CREATE INDEX`, not `UNIQUE`, so the schema imposes no uniqueness on
`payment_id`. -/
def receiptsConstraints (db : DB) : Prop :=
  (db.receipts.map ReceiptRow.id).Nodup ∧
  (∀ r ∈ db.receipts, ∃ c ∈ db.companies, c.id = r.company_id) ∧
  (∀ r ∈ db.receipts, ∀ pid, r.payment_id = some pid →
    ∃ p ∈ db.payments, p.id = pid)

/-- All constraints declared by the `init-db.ts` DDL. -/
def schemaOk (db : DB) : Prop :=
  companiesConstraints db ∧ paymentsConstraints db ∧ receiptsConstraints db

instance (db : DB) : Decidable (companiesConstraints db) := by
  unfold companiesConstraints; infer_instance

instance (db : DB) : Decidable (paymentsConstraints db) := by
  unfold paymentsConstraints; infer_instance

instance (db : DB) : Decidable (receiptsConstraints db) := by
  unfold receiptsConstraints; infer_instance

instance (db : DB) : Decidable (schemaOk db) := by
  unfold schemaOk; infer_instance

/-! ### Ingestion (`POST /api/integrations/privatbank/fetch`,
`src/unnamed/part_003`)

`parsePrivatBankTransaction` (in `lib/privatbank-client`, not among the
provided files) is abstracted: the loop is modelled over already-parsed
transactions, which is all claims C1 and C2 quantify over. -/

structure ParsedTx where
  external_id : String
  amount : ℚ
  sender_name : Option String
  sender_account : Option String
  sender_tax_id : Option String
  description : Option String
  payment_date : Int
  currency : String
  document_number : Option String
deriving DecidableEq

structure IngestSummary where
  total_fetched : Nat
  new_payments : Nat
  duplicates : Nat
  errors : List String
deriving DecidableEq

/-- The route's application-level duplicate check (part_003 lines 104-111):
an existing payment with this `external_id` AND this `company_id`. -/
def paymentExists (db : DB) (companyId : Nat) (ext : String) : Bool :=
  db.payments.any (fun p => p.external_id == ext && p.company_id == companyId)

/-- The store-level `UNIQUE` constraint on `payments.external_id`
(init-db.ts line 48): an existing payment with this `external_id` for ANY
company makes an `INSERT` fail. -/
def externalIdExists (db : DB) (ext : String) : Bool :=
  db.payments.any (fun p => p.external_id == ext)

/-- Next `SERIAL` value for `payments.id`. -/
def nextPaymentId (db : DB) : Nat :=
  (db.payments.map PaymentRow.id).foldr max 0 + 1

/-- The row the route's `INSERT INTO payments` builds (part_003 lines
120-149): `receipt_issued` is false, `is_target` is computed by
`isTargetAccount` on the sender account. -/
def newPaymentRow (db : DB) (companyId : Nat) (tx : ParsedTx) : PaymentRow :=
  { id := nextPaymentId db
    company_id := companyId
    external_id := tx.external_id
    amount := tx.amount
    currency := tx.currency
    description := tx.description
    sender_account := tx.sender_account
    sender_name := tx.sender_name
    sender_tax_id := tx.sender_tax_id
    document_number := tx.document_number
    payment_date := tx.payment_date
    receipt_issued := false
    is_target := isTargetAccount tx.sender_account
    receipt_id := none }

/-- One iteration of the route's per-transaction loop (part_003 lines
100-157).  If the company-scoped duplicate check finds a row, the transaction
is counted as a duplicate; otherwise the `INSERT` runs, and if it violates
the store's global `UNIQUE (external_id)` the per-record `catch` appends an
error message; otherwise the row is stored and counted as new. -/
def ingestTx (companyId : Nat) (acc : IngestSummary × DB) (tx : ParsedTx) :
    IngestSummary × DB :=
  let s := acc.1
  let db := acc.2
  if paymentExists db companyId tx.external_id then
    ({ s with duplicates := s.duplicates + 1 }, db)
  else if externalIdExists db tx.external_id then
    ({ s with errors :=
        s.errors ++ ["Failed to process payment " ++ tx.external_id] }, db)
  else
    ({ s with new_payments := s.new_payments + 1 },
     { db with payments := db.payments ++ [newPaymentRow db companyId tx] })

/-- The route's per-transaction loop over the fetched transactions, with the
returned summary (part_003 lines 96-175). -/
def ingest (db : DB) (companyId : Nat) (txs : List ParsedTx) :
    IngestSummary × DB :=
  txs.foldl (ingestTx companyId)
    ({ total_fetched := txs.length, new_payments := 0, duplicates := 0,
       errors := [] }, db)

/-! ### Receipt issuance (`src/app/api/receipts/create/route.ts`) -/

/-- The response of the external Checkbox API call
(`checkboxIssueReceipt`, consumed at route.ts lines 129-147). -/
structure CheckboxReceipt where
  id : String
  fiscal_code : Option String
  receipt_url : Option String
  pdf_url : Option String
  status : String
  created_at : Int
deriving DecidableEq

inductive CreateReceiptError where
  | paymentNotFound
  | alreadyIssued
  | credentialsMissing
  | fiscalSubmissionFailed (message : String)
deriving DecidableEq

/-- `SELECT ... FROM payments p ... WHERE p.id = paymentId`. -/
def findPayment (db : DB) (paymentId : Nat) : Option PaymentRow :=
  db.payments.find? (fun p => p.id == paymentId)

/-- The `INNER JOIN companies c ON p.company_id = c.id` half of the route's
lookup query. -/
def findCompany (db : DB) (companyId : Nat) : Option CompanyRow :=
  db.companies.find? (fun c => c.id == companyId)

/-- JS truthiness of a nullable string credential: `null`/`undefined` and
the empty string are falsy. -/
def credPresent (cred : Option String) : Bool :=
  match cred with
  | none => false
  | some s => !s.isEmpty

/-- Next `SERIAL` value for `receipts.id`. -/
def nextReceiptId (db : DB) : Nat :=
  (db.receipts.map ReceiptRow.id).foldr max 0 + 1

/-- The row built by the route's `INSERT INTO receipts` (route.ts lines
152-176): the company and amount come from the payment row, the rest from
the Checkbox response. -/
def newReceiptRow (db : DB) (p : PaymentRow) (paymentId : Nat)
    (cr : CheckboxReceipt) : ReceiptRow :=
  { id := nextReceiptId db
    company_id := p.company_id
    payment_id := some paymentId
    checkbox_receipt_id := cr.id
    fiscal_code := cr.fiscal_code
    amount := p.amount
    receipt_url := cr.receipt_url
    pdf_url := cr.pdf_url
    status := cr.status
    issued_at := cr.created_at }

/-- First durable write of the route: the receipt `INSERT`. -/
def insertReceipt (db : DB) (r : ReceiptRow) : DB :=
  { db with receipts := db.receipts ++ [r] }

/-- Second durable write of the route:
`UPDATE payments SET receipt_issued = true WHERE id = paymentId`.
(The route sets only the flag; it does not write `payments.receipt_id`.) -/
def markReceiptIssued (db : DB) (paymentId : Nat) : DB :=
  { db with payments := db.payments.map (fun p =>
      if p.id == paymentId then { p with receipt_issued := true } else p) }

/-- `POST /api/receipts/create`.  The outcome of the external Checkbox call
is passed as `apiResult` (`Except.error` when `checkboxIssueReceipt` throws).
Returns the route's result and the store state after the request. -/
def createReceipt (db : DB) (paymentId : Nat)
    (apiResult : Except String CheckboxReceipt) :
    Except CreateReceiptError Nat × DB :=
  match findPayment db paymentId with
  | none => (Except.error CreateReceiptError.paymentNotFound, db)
  | some p =>
    match findCompany db p.company_id with
    | none => (Except.error CreateReceiptError.paymentNotFound, db)
    | some c =>
      if p.receipt_issued then
        (Except.error CreateReceiptError.alreadyIssued, db)
      else if !credPresent c.checkbox_license_key_encrypted ||
              !credPresent c.checkbox_cashier_login ||
              !credPresent c.checkbox_cashier_pin_encrypted then
        (Except.error CreateReceiptError.credentialsMissing, db)
      else
        match apiResult with
        | Except.error msg =>
          (Except.error (CreateReceiptError.fiscalSubmissionFailed msg), db)
        | Except.ok cr =>
          let db1 := insertReceipt db (newReceiptRow db p paymentId cr)
          let db2 := markReceiptIssued db1 paymentId
          (Except.ok (nextReceiptId db), db2)

/-! ### Concrete fixtures for witnesses and counterexamples -/

def companyA : CompanyRow :=
  { id := 1, name := "Company A", tax_id := "111"
    pb_merchant_id := some "M1", pb_api_token_encrypted := some "TOK1"
    checkbox_license_key_encrypted := some "LIC1"
    checkbox_cashier_login := some "cashier1"
    checkbox_cashier_pin_encrypted := some "PIN1" }

def companyB : CompanyRow :=
  { id := 2, name := "Company B", tax_id := "222"
    pb_merchant_id := some "M2", pb_api_token_encrypted := some "TOK2"
    checkbox_license_key_encrypted := some "LIC2"
    checkbox_cashier_login := some "cashier2"
    checkbox_cashier_pin_encrypted := some "PIN2" }

def txW : ParsedTx :=
  { external_id := "TX1", amount := 5, sender_name := some "S"
    sender_account := some "UA783220010000012345678901234"
    sender_tax_id := none, description := some "d", payment_date := 0
    currency := "UAH", document_number := some "1" }

def dbTwoCompanies : DB :=
  { companies := [companyA, companyB], payments := [], receipts := [] }

def dbOneCompany : DB :=
  { companies := [companyA], payments := [], receipts := [] }

def paymentIssuedW : PaymentRow :=
  { id := 1, company_id := 1, external_id := "TX0", amount := 5
    currency := "UAH", description := none
    sender_account := some "UA783220010000012345678901234"
    sender_name := some "S", sender_tax_id := none, document_number := none
    payment_date := 0, receipt_issued := true, is_target := true
    receipt_id := none }

def paymentFreshW : PaymentRow :=
  { paymentIssuedW with receipt_issued := false }

def dbIssuedW : DB :=
  { companies := [companyA], payments := [paymentIssuedW], receipts := [] }

def dbFreshW : DB :=
  { companies := [companyA], payments := [paymentFreshW], receipts := [] }

def checkboxRespW : CheckboxReceipt :=
  { id := "CHK9", fiscal_code := some "F1", receipt_url := none
    pdf_url := none, status := "DONE", created_at := 7 }

def receiptR1 : ReceiptRow :=
  { id := 1, company_id := 1, payment_id := some 1
    checkbox_receipt_id := "CHK1", fiscal_code := none, amount := 5
    receipt_url := none, pdf_url := none, status := "issued", issued_at := 0 }

def receiptR2 : ReceiptRow :=
  { receiptR1 with id := 2, checkbox_receipt_id := "CHK2" }

/-- A store state with two Receipt rows for the same Payment. -/
def dbTwoReceipts : DB :=
  { companies := [companyA], payments := [paymentIssuedW]
    receipts := [receiptR1, receiptR2] }

/-- The store state claim C1 expects after both tenants ingest external id
`TX1`: two Payment rows sharing one external id. -/
def dbClaimC1 : DB :=
  { companies := [companyA, companyB]
    payments :=
      [newPaymentRow dbTwoCompanies 1 txW,
       { newPaymentRow dbTwoCompanies 1 txW with id := 2, company_id := 2 }]
    receipts := [] }

/-! ### Claims C1-C5 -/

/-- C1: the claim fails against the schema.  `init-db.ts` line 48 declares
`external_id VARCHAR(255) UNIQUE` — uniqueness of `external_id` alone,
globally — so the two-row state the claim requires violates
`paymentsConstraints`, and when a second company ingests a transaction whose
external id the first company already stored, the route's company-scoped
duplicate check does not fire, the `INSERT` hits the global constraint, and
the transaction lands in the error list: one stored row, not two. -/
theorem ingest_crossTenant_uniqueViolation :
    ¬ paymentsConstraints dbClaimC1 ∧
    (ingest dbTwoCompanies 1 [txW]).1.new_payments = 1 ∧
    (ingest (ingest dbTwoCompanies 1 [txW]).2 2 [txW]).1.new_payments = 0 ∧
    (ingest (ingest dbTwoCompanies 1 [txW]).2 2 [txW]).1.duplicates = 0 ∧
    (ingest (ingest dbTwoCompanies 1 [txW]).2 2 [txW]).1.errors.length = 1 ∧
    ((ingest (ingest dbTwoCompanies 1 [txW]).2 2 [txW]).2.payments.filter
      (fun p => p.external_id == "TX1")).length = 1 := by
  decide

/-- If the company-scoped duplicate check fires, the store-level global
uniqueness check fires as well. -/
theorem paymentExists_imp_externalIdExists (db : DB) (cid : Nat) (e : String)
    (h : paymentExists db cid e = true) : externalIdExists db e = true := by
  unfold paymentExists at h
  unfold externalIdExists
  rw [List.any_eq_true] at h ⊢
  obtain ⟨p, hp, hpe⟩ := h
  rw [Bool.and_eq_true] at hpe
  exact ⟨p, hp, hpe.1⟩

/-- C2: ingestion is idempotent per tenant and transaction.  For a
transaction whose external id is not yet stored, the first run stores one
Payment row; running ingest again over a range containing the same
transaction stores nothing new, counts it as a duplicate, and leaves the
store unchanged. -/
theorem ingest_idempotent (db : DB) (cid : Nat) (tx : ParsedTx)
    (hfresh : externalIdExists db tx.external_id = false) :
    (ingest db cid [tx]).1.new_payments = 1 ∧
    ingest (ingest db cid [tx]).2 cid [tx] =
      ({ total_fetched := 1, new_payments := 0, duplicates := 1, errors := [] },
       (ingest db cid [tx]).2) := by
  have hpe : paymentExists db cid tx.external_id = false := by
    cases hcase : paymentExists db cid tx.external_id
    · rfl
    · rw [paymentExists_imp_externalIdExists db cid tx.external_id hcase]
        at hfresh
      exact absurd hfresh (by simp)
  have hrow : paymentExists
      { db with payments := db.payments ++ [newPaymentRow db cid tx] }
      cid tx.external_id = true := by
    unfold paymentExists
    simp [List.any_append, newPaymentRow]
  constructor
  · simp [ingest, ingestTx, hpe, hfresh]
  · simp [ingest, ingestTx, hpe, hfresh, hrow]

/-- Witness for C2: one company, an empty store, one transaction. -/
theorem ingest_idempotent_witness :
    (ingest dbOneCompany 1 [txW]).1.new_payments = 1 ∧
    ingest (ingest dbOneCompany 1 [txW]).2 1 [txW] =
      ({ total_fetched := 1, new_payments := 0, duplicates := 1, errors := [] },
       (ingest dbOneCompany 1 [txW]).2) :=
  ingest_idempotent dbOneCompany 1 txW (by decide)

/-- C3: issuing a receipt for a Payment whose `receipt_issued` flag is
already true fails with the already-issued error and leaves the store
unchanged (no Receipt row inserted, no Payment row touched), whatever the
external fiscal API would have answered. -/
theorem issue_alreadyIssued (db : DB) (pid : Nat)
    (api : Except String CheckboxReceipt) (p : PaymentRow)
    (hp : findPayment db pid = some p)
    (hc : (findCompany db p.company_id).isSome = true)
    (hi : p.receipt_issued = true) :
    createReceipt db pid api =
      (Except.error CreateReceiptError.alreadyIssued, db) := by
  obtain ⟨c, hc2⟩ := Option.isSome_iff_exists.mp hc
  simp [createReceipt, hp, hc2, hi]

/-- Witness for C3: a store with one already-issued payment. -/
theorem issue_alreadyIssued_witness :
    createReceipt dbIssuedW 1 (Except.error "boom") =
      (Except.error CreateReceiptError.alreadyIssued, dbIssuedW) :=
  issue_alreadyIssued dbIssuedW 1 (Except.error "boom") paymentIssuedW
    (by decide) (by decide) (by decide)

/-- C4: when the external fiscal API call fails, the route surfaces the
fiscal-submission failure and mutates nothing: the returned store equals the
input store, so `receipt_issued` stays false and no Receipt row is
persisted. -/
theorem issue_apiFailure_noMutation (db : DB) (pid : Nat) (msg : String)
    (p : PaymentRow) (c : CompanyRow)
    (hp : findPayment db pid = some p)
    (hc : findCompany db p.company_id = some c)
    (hni : p.receipt_issued = false)
    (h1 : credPresent c.checkbox_license_key_encrypted = true)
    (h2 : credPresent c.checkbox_cashier_login = true)
    (h3 : credPresent c.checkbox_cashier_pin_encrypted = true) :
    createReceipt db pid (Except.error msg) =
      (Except.error (CreateReceiptError.fiscalSubmissionFailed msg), db) := by
  simp [createReceipt, hp, hc, hni, h1, h2, h3]

/-- Witness for C4: a fresh payment with full credentials and a failing API
call. -/
theorem issue_apiFailure_witness :
    createReceipt dbFreshW 1 (Except.error "net down") =
      (Except.error (CreateReceiptError.fiscalSubmissionFailed "net down"),
       dbFreshW) :=
  issue_apiFailure_noMutation dbFreshW 1 "net down" paymentFreshW companyA
    (by decide) (by decide) (by decide) (by decide) (by decide) (by decide)

/-- C5 counterexample: the schema declared by `init-db.ts` does NOT enforce
uniqueness of `receipts.payment_id` (`idx_receipts_payment_id` is a plain
index): a state with two distinct Receipt rows referencing the same Payment
satisfies every declared constraint. -/
theorem receipts_paymentId_not_unique :
    schemaOk dbTwoReceipts ∧
    receiptR1 ∈ dbTwoReceipts.receipts ∧
    receiptR2 ∈ dbTwoReceipts.receipts ∧
    receiptR1 ≠ receiptR2 ∧
    receiptR1.payment_id = some 1 ∧
    receiptR2.payment_id = some 1 := by
  decide

/-- C5 amended: the Receipt insert and the `receipt_issued` update are two
separate sequential statements, not one transaction.  On the success path
the final state is the update applied after the insert, and the intermediate
state after the insert alone already holds a Receipt referencing the Payment
while that Payment's `receipt_issued` is still false. -/
theorem receipts_insert_then_update (db : DB) (pid : Nat)
    (cr : CheckboxReceipt) (p : PaymentRow) (c : CompanyRow)
    (hp : findPayment db pid = some p)
    (hc : findCompany db p.company_id = some c)
    (hni : p.receipt_issued = false)
    (h1 : credPresent c.checkbox_license_key_encrypted = true)
    (h2 : credPresent c.checkbox_cashier_login = true)
    (h3 : credPresent c.checkbox_cashier_pin_encrypted = true) :
    createReceipt db pid (Except.ok cr) =
      (Except.ok (nextReceiptId db),
        markReceiptIssued (insertReceipt db (newReceiptRow db p pid cr)) pid) ∧
    newReceiptRow db p pid cr ∈
      (insertReceipt db (newReceiptRow db p pid cr)).receipts ∧
    (newReceiptRow db p pid cr).payment_id = some pid ∧
    p ∈ (insertReceipt db (newReceiptRow db p pid cr)).payments ∧
    p.id = pid ∧ p.receipt_issued = false := by
  have hpm : p ∈ db.payments := List.mem_of_find?_eq_some hp
  have hpid : p.id = pid := by
    have hbeq := List.find?_some hp
    simpa using hbeq
  refine ⟨?_, ?_, rfl, ?_, hpid, hni⟩
  · simp [createReceipt, hp, hc, hni, h1, h2, h3]
  · simp [insertReceipt]
  · simpa [insertReceipt] using hpm

/-- Witness for C5's amended statement: the success path on a concrete
store. -/
theorem receipts_insert_then_update_witness :
    createReceipt dbFreshW 1 (Except.ok checkboxRespW) =
      (Except.ok (nextReceiptId dbFreshW),
        markReceiptIssued
          (insertReceipt dbFreshW
            (newReceiptRow dbFreshW paymentFreshW 1 checkboxRespW)) 1) :=
  (receipts_insert_then_update dbFreshW 1 checkboxRespW paymentFreshW companyA
    (by decide) (by decide) (by decide) (by decide) (by decide) (by decide)).1

/-! ### Claims C6-C10 -/

/-- C6: for every account string of length at least 19 that is not the
designated excluded identifier, `isTargetAccount` returns false exactly when
the 4-character window at 0-indexed positions 15-18 is one of the four
non-target codes, and true otherwise. -/
theorem isTargetAccount_pattern (s : String) (h19 : 19 ≤ s.length)
    (hne : s ≠ NOVA_POSHTA_ACCOUNT) :
    isTargetAccount (some s) = false ↔ patternSection s ∈ NON_TARGET_PATTERNS := by
  have hlt : ¬ s.length < 19 := by omega
  simp [isTargetAccount, hlt, hne, List.contains, List.elem_iff]

/-- Witness for C6: the two example accounts from the source doc comment,
one with window `2600` (non-target) and one with window `1234` (target). -/
theorem isTargetAccount_pattern_witness :
    isTargetAccount (some "UA843052990000026001031613189") = false ∧
    isTargetAccount (some "UA783220010000012345678901234") ≠ false :=
  ⟨(isTargetAccount_pattern "UA843052990000026001031613189" (by decide)
      (by decide)).mpr (by decide),
   fun h =>
    (by decide :
        patternSection "UA783220010000012345678901234" ∉ NON_TARGET_PATTERNS)
      ((isTargetAccount_pattern "UA783220010000012345678901234" (by decide)
        (by decide)).mp h)⟩

/-- C7: for the designated excluded courier account, `isTargetAccount`
returns false even though its window (`2654`) is not one of the four
non-target codes. -/
theorem isTargetAccount_excluded :
    isTargetAccount (some NOVA_POSHTA_ACCOUNT) = false ∧
    patternSection NOVA_POSHTA_ACCOUNT ∉ NON_TARGET_PATTERNS := by
  decide

/-- C8: for a null/absent account, an empty account, or any account shorter
than 19 characters, both revisions of `isTargetAccount` return false. -/
theorem isTargetAccount_shortOrMissing (acc : Option String)
    (h : accountMissingOrShort acc = true) :
    isTargetAccount acc = false ∧ isTargetAccountNoExcl acc = false := by
  cases acc with
  | none => exact ⟨rfl, rfl⟩
  | some s =>
    have hs : s.length < 19 := by
      simpa [accountMissingOrShort] using h
    simp [isTargetAccount, isTargetAccountNoExcl, hs]

/-- Witness for C8: the empty account string. -/
theorem isTargetAccount_shortOrMissing_witness :
    isTargetAccount (some "") = false ∧ isTargetAccountNoExcl (some "") = false :=
  isTargetAccount_shortOrMissing (some "") (by decide)

/-- C9: `uahToKopiyky` (modelled from the spec as amount × 100 rounded to the
nearest integer) is exact and invertible on every amount with at most two
decimal places, i.e. every `n / 100` with `n` an integer: the conversion
returns exactly `n`, and dividing the result by 100 recovers the amount. -/
theorem uahToKopiyky_exact_invertible (n : ℤ) :
    uahToKopiyky ((n : ℚ) / 100) = n ∧
    ((uahToKopiyky ((n : ℚ) / 100) : ℚ) / 100 = (n : ℚ) / 100) := by
  have h : ((n : ℚ) / 100) * 100 = (n : ℚ) :=
    div_mul_cancel₀ _ (by norm_num)
  refine ⟨?_, ?_⟩
  · unfold uahToKopiyky
    rw [h, round_intCast]
  · unfold uahToKopiyky
    rw [h, round_intCast]

/-- C10: `POST /api/receipts/create` builds its company info without
`tax_id`, so the resolved product title is always the fixed universal default
regardless of the payment (its description included), and the product code is
always the payment id rendered as a string. -/
theorem route_product_title_universal (cid : Nat) (cname : String)
    (p : PaymentInfo) :
    getProductTitle (routeCompanyInfo cid cname) p = getUniversalProductTitle p ∧
    getUniversalProductTitle p = "Перехідник HDMI-RCA" ∧
    getProductCode (routeCompanyInfo cid cname) p = toString p.id :=
  ⟨rfl, rfl, rfl⟩
